import Mathlib

/-
Shallow embedding of the citrus constraint-synthesis layer
(src/citrus/core.py and src/citrus/errors.py).

Conventions of the embedding:
* Python dicts over string keys become association lists with
  replace-or-append update (`dictSet`) and first-match lookup (`dictGet`);
  a `KeyError` becomes `Option.none`.
* `hashlib.sha1(repr(long_name).encode('utf-8')).hexdigest()` is an external
  library call, so the digest is a parameter `digest : String → String` of
  every operation that mints names; properties of real SHA-1 (40-character
  hex output, collision freedom) appear as hypotheses where a claim needs
  them.
* A pulp `Problem` is modelled by the state that citrus itself reads and
  writes: the synthesis counter `_synth_var_ix`, the `NameMapping`, and the
  lists of variables created through the context and of registered
  constraints.  `id` models Python object identity of the problem (used by
  the `is not` comparison in errors.assert_same_problem).
* A pulp variable is modelled by its long name, short name, category and
  owning problem id; `fixedValue = some q` models a variable fixed to the
  constant `q` (pulp's `isConstant()`/`value()` used by errors.assert_binary).
* Fallible Python code returns `Except Err α`; a raised exception is
  `.error`.  Note that errors.py defines
  `def assert_same_problem(x, y)` with two required positional parameters,
  while every call site in core.py passes a single list
  (`assert_same_problem(xs)` / `assert_same_problem([x, y])`); in Python such
  a call raises `TypeError` before the callee body runs, which the embedding
  models with `assert_same_problem_miscalled`.
-/

namespace Citrus

/-- Variable category, modelling pulp.LpBinary / pulp.LpInteger /
pulp.LpContinuous. -/
inductive Cat where
  | Binary
  | Integer
  | Continuous
deriving DecidableEq

/-- Model of a citrus Variable: long (semantic) name, short (solver) name,
category, the identity of the owning problem, and an optional fixed constant
value (pulp `isConstant()` / `value()`). -/
structure Variable where
  long_name : String
  name : String
  cat : Cat
  problem : Nat
  fixedValue : Option ℚ
deriving DecidableEq

/-- A pulp-style affine expression: a list of (variable short name,
coefficient) terms plus a constant.  pulp merges coefficients of repeated
variables; the embedding keeps the raw term list, which evaluates to the
same value under any assignment. -/
structure LinExpr where
  terms : List (String × ℚ)
  const : ℚ
deriving DecidableEq

def LinExpr.ofVar (v : Variable) : LinExpr := ⟨[(v.name, 1)], 0⟩

def LinExpr.ofConst (q : ℚ) : LinExpr := ⟨[], q⟩

def LinExpr.add (a b : LinExpr) : LinExpr := ⟨a.terms ++ b.terms, a.const + b.const⟩

def LinExpr.neg (a : LinExpr) : LinExpr :=
  ⟨a.terms.map (fun t => (t.1, -t.2)), -a.const⟩

def LinExpr.sub (a b : LinExpr) : LinExpr := a.add b.neg

/-- `pulp.lpSum(xs)` over a list of variables. -/
def lpSumVars (xs : List Variable) : LinExpr := ⟨xs.map (fun x => (x.name, 1)), 0⟩

/-- Value of an affine expression under an assignment of rationals to
variable (short) names. -/
def LinExpr.eval (σ : String → ℚ) (e : LinExpr) : ℚ :=
  (e.terms.map (fun t => t.2 * σ t.1)).sum + e.const

/-- A registered linear constraint: `lhs ≤ rhs`, `lhs ≥ rhs` or `lhs = rhs`,
exactly as written at the pulp call site. -/
inductive Constr where
  | le (lhs rhs : LinExpr)
  | ge (lhs rhs : LinExpr)
  | eq (lhs rhs : LinExpr)
deriving DecidableEq

/-- Satisfaction of a constraint by an assignment. -/
def Constr.sat (σ : String → ℚ) : Constr → Prop
  | .le a b => a.eval σ ≤ b.eval σ
  | .ge a b => b.eval σ ≤ a.eval σ
  | .eq a b => a.eval σ = b.eval σ

instance (σ : String → ℚ) : (c : Constr) → Decidable (Constr.sat σ c)
  | .le a b => inferInstanceAs (Decidable (a.eval σ ≤ b.eval σ))
  | .ge a b => inferInstanceAs (Decidable (b.eval σ ≤ a.eval σ))
  | .eq a b => inferInstanceAs (Decidable (a.eval σ = b.eval σ))

/-- Python-dict lookup on an association list (`d[k]`); `none` models a
`KeyError`. -/
def dictGet (d : List (String × String)) (k : String) : Option String :=
  match d with
  | [] => none
  | (k', v) :: rest => if k' = k then some v else dictGet rest k

/-- Python-dict assignment `d[k] = v`: replace in place, else append. -/
def dictSet (d : List (String × String)) (k v : String) : List (String × String) :=
  match d with
  | [] => [(k, v)]
  | (k', v') :: rest => if k' = k then (k, v) :: rest else (k', v') :: dictSet rest k v

/-- core.py NameMapping: the two dicts `_long_to_short` and `_short_to_long`. -/
structure NameMapping where
  long_to_short : List (String × String)
  short_to_long : List (String × String)
deriving DecidableEq

/-- core.py `NameMapping.get_short_name(var)`: as written in the source it
returns `self._short_to_long[var]` (note the dictionary it reads). -/
def NameMapping.get_short_name (m : NameMapping) (v : String) : Option String :=
  dictGet m.short_to_long v

/-- core.py `NameMapping.get_long_name(name)`: as written in the source it
returns `self._long_to_short[name]` (note the dictionary it reads). -/
def NameMapping.get_long_name (m : NameMapping) (n : String) : Option String :=
  dictGet m.long_to_short n

/-- core.py `NameMapping.add(long=, short=)`. -/
def NameMapping.add (m : NameMapping) (long short : String) : NameMapping :=
  { long_to_short := dictSet m.long_to_short long short
    short_to_long := dictSet m.short_to_long short long }

/-- core.py `NameMapping.create_short_name(long_name, prefix)`.
Returns the updated mapping, the short name, and whether `warnings.warn`
fired (the already-registered anomaly).  `digest` stands for
`lambda s: hashlib.sha1(repr(s).encode('utf-8')).hexdigest()`. -/
def NameMapping.create_short_name (m : NameMapping) (digest : String → String)
    (long_name : String) (pre : String) : NameMapping × String × Bool :=
  match dictGet m.long_to_short long_name with
  | none =>
      let short := pre ++ digest long_name
      (m.add long_name short, short, false)
  | some short => (m, short, true)

/-- Python exceptions raised by the layer.  `TypeError` is Python's own
arity-mismatch error; the others model errors.py (`NonBinaryVariableError`,
`CitrusError`, `MissingProblemReference`) and a dictionary `KeyError`. -/
inductive Err where
  | NonBinaryVariableError (name : String)
  | CitrusError (msg : String)
  | TypeError (msg : String)
  | MissingProblemReference (msg : String)
  | KeyError (key : String)
deriving DecidableEq

/-- errors.py `assert_binary(var)`: pass when the variable is binary, or a
fixed constant whose value is 1 or 0; otherwise raise
`NonBinaryVariableError(var.name)`. -/
def assert_binary (v : Variable) : Except Err Unit :=
  if v.cat = Cat.Binary then .ok ()
  else if v.fixedValue = some 1 ∨ v.fixedValue = some 0 then .ok ()
  else .error (.NonBinaryVariableError v.name)

/-- errors.py `assert_same_problem(x, y)` as defined: raises CitrusError when
`x._problem is not y._problem`, else returns x. -/
def assert_same_problem (x y : Variable) : Except Err Variable :=
  if x.problem ≠ y.problem then
    .error (.CitrusError "Variables must be associated with the same problem.")
  else .ok x

/-- The Python TypeError text produced when a function with two required
positional parameters is called with one argument. -/
def missingArgMsg : String :=
  "assert_same_problem() missing 1 required positional argument: y"

/-- core.py calls `assert_same_problem(xs)` (and `assert_same_problem([x, y])`)
with a single positional argument, but errors.py defines the function with two
required positional parameters, so in Python every such call raises
`TypeError` before the callee body runs.  This definition embeds that call
exactly; the argument list is never inspected. -/
def assert_same_problem_miscalled (_xs : List Variable) : Except Err Variable :=
  .error (.TypeError missingArgMsg)

/-- core.py Problem: the state citrus reads and writes on a pulp problem.
`id` models Python object identity; `vars` accumulates the Variables created
through this context; `constraints` the registered (short name, constraint)
pairs. -/
structure Problem where
  id : Nat
  synth_var_ix : Nat
  name_mapping : NameMapping
  vars : List Variable
  constraints : List (String × Constr)
deriving DecidableEq

/-- core.py `Problem._synth_var`: return the stringified counter and
increment it. -/
def Problem.synth_var (p : Problem) : String × Problem :=
  (toString p.synth_var_ix, { p with synth_var_ix := p.synth_var_ix + 1 })

/-- core.py `Problem.make_var(long_name, cat)` / `Variable.__init__`: mint a
short name for the long name (prefix `x_`) through the registry and create
the variable bound to this problem. -/
def Problem.make_var (p : Problem) (digest : String → String) (long : String)
    (cat : Cat) : Problem × Variable :=
  let r := p.name_mapping.create_short_name digest long "x_"
  let v : Variable :=
    { long_name := long, name := r.2.1, cat := cat, problem := p.id, fixedValue := none }
  ({ p with name_mapping := r.1, vars := p.vars ++ [v] }, v)

/-- core.py `Problem.addConstraint(constraint, name)`: when no name is given
one is synthesized from the counter; the name is routed through
`create_short_name` with prefix `constraint_`; then the constraint is
registered under the short name. -/
def Problem.addConstraint (p : Problem) (digest : String → String) (c : Constr)
    (nameArg : Option String) : Problem :=
  let r0 := match nameArg with
    | none => (toString p.synth_var_ix, { p with synth_var_ix := p.synth_var_ix + 1 })
    | some n => (n, p)
  let nm := r0.2.name_mapping.create_short_name digest r0.1 "constraint_"
  { r0.2 with name_mapping := nm.1, constraints := r0.2.constraints ++ [(nm.2.1, c)] }

/-- The operand of `abs_value`: a Variable or AffineExpression, reduced to
what the function reads — its affine content `e`, its `.name` attribute and
its `._problem`. -/
structure ExprArg where
  e : LinExpr
  name : String
  problem : Nat

/-- A Variable used where a Variable-or-expression operand is expected. -/
def Variable.arg (v : Variable) : ExprArg := ⟨LinExpr.ofVar v, v.name, v.problem⟩

/-- core.py `abs_value(var)`: mint a tag, create the integer-category
auxiliary `z = make_var(f"abs({var.name})_{tag}", cat=pulp.LpInteger)`, and
register `var <= z` and `-z <= var`. -/
def abs_value (digest : String → String) (p : Problem) (v : ExprArg) :
    Problem × Variable :=
  let r := p.synth_var
  let mv := r.2.make_var digest ("abs(" ++ v.name ++ ")_" ++ r.1) Cat.Integer
  let z := mv.2
  let p1 := mv.1.addConstraint digest (Constr.le v.e (LinExpr.ofVar z))
    (some ("abs_support_1_" ++ r.1))
  let p2 := p1.addConstraint digest (Constr.le (LinExpr.neg (LinExpr.ofVar z)) v.e)
    (some ("abs_support_2_" ++ r.1))
  (p2, z)

/-- The constraint `y == 1 - x` registered by `negate`. -/
def negConstr (y x : Variable) : Constr :=
  Constr.eq (LinExpr.ofVar y) ((LinExpr.ofConst 1).sub (LinExpr.ofVar x))

/-- Lines 148–152 of core.py `negate`, after the binary check: mint a tag,
create the binary auxiliary `y = make_var('(NOT {x.name})_{tag}', LpBinary)`
and register `y == 1 - x` under `negate_support_{tag}`. -/
def negate_body (digest : String → String) (p : Problem) (x : Variable) :
    Problem × Variable :=
  let r := p.synth_var
  let mv := r.2.make_var digest ("(NOT " ++ x.name ++ ")_" ++ r.1) Cat.Binary
  let p1 := mv.1.addConstraint digest (negConstr mv.2 x)
    (some ("negate_support_" ++ r.1))
  (p1, mv.2)

/-- core.py `negate(x)`: `assert_binary(x)` first, then the synthesis body. -/
def negate (digest : String → String) (p : Problem) (x : Variable) :
    Except Err (Problem × Variable) := do
  let _ ← assert_binary x
  return negate_body digest p x

/-- Lines 168–176 of core.py `logical_and` (unreachable in the source for
`len(xs) ≠ 1`, because the call on line 164 raises `TypeError` first):
binary auxiliary `z`, constraint `z >= lpSum(xs) - len(xs) + 1`, and
`z <= x` for each operand. -/
def logical_and_body (digest : String → String) (p : Problem) (xs : List Variable) :
    Problem × Variable :=
  let r := p.synth_var
  let long := "(" ++ String.intercalate "_AND_" (xs.map (fun x => x.name)) ++ ")_" ++ r.1
  let mv := r.2.make_var digest long Cat.Binary
  let z := mv.2
  let p1 := mv.1.addConstraint digest
    (Constr.ge (LinExpr.ofVar z)
      (((lpSumVars xs).sub (LinExpr.ofConst (xs.length : ℚ))).add (LinExpr.ofConst 1)))
    (some ("logical_and_support_" ++ r.1))
  let p2 := xs.enum.foldl
    (fun acc ixx => acc.addConstraint digest
      (Constr.le (LinExpr.ofVar z) (LinExpr.ofVar ixx.2))
      (some ("logical_and_support_" ++ toString ixx.1 ++ "_" ++ r.1)))
    p1
  (p2, z)

/-- core.py `logical_and(xs)`: a single-element list returns its element
unchanged; otherwise `assert_same_problem(xs)` is called (with one argument —
see `assert_same_problem_miscalled`), then each operand is checked binary,
then the synthesis body runs. -/
def logical_and (digest : String → String) (p : Problem) (xs : List Variable) :
    Except Err (Problem × Variable) :=
  match xs with
  | [x] => .ok (p, x)
  | xs => do
    let _ ← assert_same_problem_miscalled xs
    let _ ← xs.forM (fun x => assert_binary x)
    return logical_and_body digest p xs

/-- Lines 187–195 of core.py `logical_or` (unreachable for `len(xs) ≠ 1`, as
in `logical_and`): binary auxiliary `z`, constraint `z <= lpSum(xs)`, and
`z >= x` for each operand. -/
def logical_or_body (digest : String → String) (p : Problem) (xs : List Variable) :
    Problem × Variable :=
  let r := p.synth_var
  let long := "(" ++ String.intercalate "_OR_" (xs.map (fun x => x.name)) ++ ")_" ++ r.1
  let mv := r.2.make_var digest long Cat.Binary
  let z := mv.2
  let p1 := mv.1.addConstraint digest
    (Constr.le (LinExpr.ofVar z) (lpSumVars xs))
    (some ("logical_or_support_" ++ r.1))
  let p2 := xs.enum.foldl
    (fun acc ixx => acc.addConstraint digest
      (Constr.ge (LinExpr.ofVar z) (LinExpr.ofVar ixx.2))
      (some ("logical_or_support_" ++ toString ixx.1 ++ "_" ++ r.1)))
    p1
  (p2, z)

/-- core.py `logical_or(xs)`: same shape as `logical_and`. -/
def logical_or (digest : String → String) (p : Problem) (xs : List Variable) :
    Except Err (Problem × Variable) :=
  match xs with
  | [x] => .ok (p, x)
  | xs => do
    let _ ← assert_same_problem_miscalled xs
    let _ ← xs.forM (fun x => assert_binary x)
    return logical_or_body digest p xs

/-- Lines 202–211 of core.py `logical_xor` (unreachable — the call on line
198 raises): binary auxiliary `z` with `z <= x + y`, `z >= x - y`,
`z >= y - x`, `z <= 2 - x - y`. -/
def logical_xor_body (digest : String → String) (p : Problem) (x y : Variable) :
    Problem × Variable :=
  let r := p.synth_var
  let mv := r.2.make_var digest ("(" ++ x.name ++ " XOR " ++ y.name ++ ")_" ++ r.1) Cat.Binary
  let z := mv.2
  let p1 := mv.1.addConstraint digest
    (Constr.le (LinExpr.ofVar z) ((LinExpr.ofVar x).add (LinExpr.ofVar y)))
    (some ("logical_xor_support_0_" ++ r.1))
  let p2 := p1.addConstraint digest
    (Constr.ge (LinExpr.ofVar z) ((LinExpr.ofVar x).sub (LinExpr.ofVar y)))
    (some ("logical_xor_support_1_" ++ r.1))
  let p3 := p2.addConstraint digest
    (Constr.ge (LinExpr.ofVar z) ((LinExpr.ofVar y).sub (LinExpr.ofVar x)))
    (some ("logical_xor_support_2_" ++ r.1))
  let p4 := p3.addConstraint digest
    (Constr.le (LinExpr.ofVar z)
      (((LinExpr.ofConst 2).sub (LinExpr.ofVar x)).sub (LinExpr.ofVar y)))
    (some ("logical_xor_support_3_" ++ r.1))
  (p4, z)

/-- core.py `logical_xor(x, y)`: `assert_same_problem([x, y])` is called with
one argument (TypeError), then the binary checks, then the body. -/
def logical_xor (digest : String → String) (p : Problem) (x y : Variable) :
    Except Err (Problem × Variable) := do
  let _ ← assert_same_problem_miscalled [x, y]
  let _ ← assert_binary x
  let _ ← assert_binary y
  return logical_xor_body digest p x y

/-- Lines 218–225 of core.py `implies` (unreachable — the call on line 214
raises): binary auxiliary `z` with `z <= 1 - x + y`, `z >= 1 - x`, `z >= y`. -/
def implies_body (digest : String → String) (p : Problem) (x y : Variable) :
    Problem × Variable :=
  let r := p.synth_var
  let mv := r.2.make_var digest
    ("(" ++ x.name ++ " implies " ++ y.name ++ ")_" ++ r.1) Cat.Binary
  let z := mv.2
  let p1 := mv.1.addConstraint digest
    (Constr.le (LinExpr.ofVar z)
      (((LinExpr.ofConst 1).sub (LinExpr.ofVar x)).add (LinExpr.ofVar y)))
    (some ("implies_support_0_" ++ r.1))
  let p2 := p1.addConstraint digest
    (Constr.ge (LinExpr.ofVar z) ((LinExpr.ofConst 1).sub (LinExpr.ofVar x)))
    (some ("implies_support_1_" ++ r.1))
  let p3 := p2.addConstraint digest
    (Constr.ge (LinExpr.ofVar z) (LinExpr.ofVar y))
    (some ("implies_support_2_" ++ r.1))
  (p3, z)

/-- core.py `implies(x, y)`: same calling pattern as `logical_xor`. -/
def implies (digest : String → String) (p : Problem) (x y : Variable) :
    Except Err (Problem × Variable) := do
  let _ ← assert_same_problem_miscalled [x, y]
  let _ ← assert_binary x
  let _ ← assert_binary y
  return implies_body digest p x y

/-- Lines 233–238 of core.py `minimum` (unreachable for `len(xs) ≠ 1`):
continuous auxiliary `m` with `m <= x` for each operand. -/
def minimum_body (digest : String → String) (p : Problem) (xs : List Variable)
    (nameArg : Option String) : Problem × Variable :=
  let r := p.synth_var
  let mv := r.2.make_var digest (nameArg.getD "min" ++ "_" ++ r.1) Cat.Continuous
  let m := mv.2
  let p1 := xs.enum.foldl
    (fun acc ixx => acc.addConstraint digest
      (Constr.le (LinExpr.ofVar m) (LinExpr.ofVar ixx.2))
      (some ("min_support_" ++ toString ixx.1 ++ "_" ++ r.1)))
    mv.1
  (p1, m)

/-- core.py `minimum(xs, name)`: single-element identity, otherwise
`assert_same_problem(xs)` is called with one argument (TypeError) before the
body. -/
def minimum (digest : String → String) (p : Problem) (xs : List Variable)
    (nameArg : Option String) : Except Err (Problem × Variable) :=
  match xs with
  | [x] => .ok (p, x)
  | xs => do
    let _ ← assert_same_problem_miscalled xs
    return minimum_body digest p xs nameArg

/-- Lines 245–250 of core.py `maximum` (unreachable for `len(xs) ≠ 1`):
continuous auxiliary `m` with `m >= x` for each operand. -/
def maximum_body (digest : String → String) (p : Problem) (xs : List Variable)
    (nameArg : Option String) : Problem × Variable :=
  let r := p.synth_var
  let mv := r.2.make_var digest (nameArg.getD "max" ++ "_" ++ r.1) Cat.Continuous
  let m := mv.2
  let p1 := xs.enum.foldl
    (fun acc ixx => acc.addConstraint digest
      (Constr.ge (LinExpr.ofVar m) (LinExpr.ofVar ixx.2))
      (some ("max_support_" ++ toString ixx.1 ++ "_" ++ r.1)))
    mv.1
  (p1, m)

/-- core.py `maximum(xs, name)`: mirror of `minimum`. -/
def maximum (digest : String → String) (p : Problem) (xs : List Variable)
    (nameArg : Option String) : Except Err (Problem × Variable) :=
  match xs with
  | [x] => .ok (p, x)
  | xs => do
    let _ ← assert_same_problem_miscalled xs
    return maximum_body digest p xs nameArg

/-- The Python TypeError raised by `logical_and(t1, t2)`: the source defines
`def logical_and(xs)` with a single parameter, so the two-positional-argument
call form used by tests.py raises before the body runs. -/
def logical_and_call2 (_p : Problem) (_x _y : Variable) : Except Err (Problem × Variable) :=
  .error (.TypeError "logical_and() takes 1 positional argument but 2 were given")

/-- The Python TypeError raised by `logical_or(t1, t2)`: the source defines
`def logical_or(xs)` with a single parameter. -/
def logical_or_call2 (_p : Problem) (_x _y : Variable) : Except Err (Problem × Variable) :=
  .error (.TypeError "logical_or() takes 1 positional argument but 2 were given")

/-! ### Concrete fixtures used to evaluate the code at specific inputs -/

/-- A digest stand-in for concrete evaluations (claims that depend on digest
properties state them as hypotheses instead). -/
def digest0 : String → String := fun s => s

/-- A freshly constructed Problem (`Problem.__init__`): counter 0, empty
registry, nothing registered. -/
def prob0 : Problem :=
  { id := 0, synth_var_ix := 0, name_mapping := ⟨[], []⟩, vars := [], constraints := [] }

/-- A binary variable of problem 0. -/
def xbin0 : Variable := ⟨"x", "x", Cat.Binary, 0, none⟩

/-- A second binary variable of problem 0. -/
def ybin0 : Variable := ⟨"y", "y", Cat.Binary, 0, none⟩

/-- A binary variable of a different problem (id 1). -/
def ybin1 : Variable := ⟨"y1", "y1", Cat.Binary, 1, none⟩

/-- An integer-category (non-binary, non-constant) variable of problem 0. -/
def xint0 : Variable := ⟨"xi", "xi", Cat.Integer, 0, none⟩

/-- A second integer-category variable of problem 0. -/
def yint0 : Variable := ⟨"yi", "yi", Cat.Integer, 0, none⟩

/-- A non-binary-category variable fixed to the constant 1. -/
def cone0 : Variable := ⟨"c1", "c1", Cat.Integer, 0, some 1⟩

/-- A registry holding the single pair long "alpha" ↔ short "x_aa". -/
def nmEx : NameMapping := (NameMapping.mk [] []).add "alpha" "x_aa"

/-! ### Helper lemmas -/

theorem dictGet_dictSet_self (d : List (String × String)) (k v : String) :
    dictGet (dictSet d k v) k = some v := by
  induction d with
  | nil => simp [dictSet, dictGet]
  | cons hd tl ih =>
    obtain ⟨k', v'⟩ := hd
    by_cases h : k' = k
    · simp [dictSet, dictGet, h]
    · simp [dictSet, dictGet, h, ih]

theorem string_append_left_cancel {a b c : String} (h : a ++ b = a ++ c) : b = c := by
  have hd : a.data ++ b.data = a.data ++ c.data := by
    rw [← String.data_append, ← String.data_append, h]
  have hbc : b.data = c.data := List.append_cancel_left hd
  cases b; cases c
  exact congrArg String.mk hbc

theorem assert_binary_of_binary {x : Variable} (hx : x.cat = Cat.Binary) :
    assert_binary x = .ok () := by
  simp [assert_binary, hx]

theorem negate_eq_ok {digest : String → String} {p : Problem} {x : Variable}
    (hx : x.cat = Cat.Binary) :
    negate digest p x = .ok (negate_body digest p x) := by
  unfold negate
  rw [assert_binary_of_binary hx]
  rfl

theorem sum_map_neg_q {α : Type} (l : List α) (g : α → ℚ) :
    (l.map (fun t => -(g t))).sum = -((l.map g).sum) := by
  induction l with
  | nil => simp
  | cons a tl ih => simp [ih]; ring

@[simp] theorem eval_ofVar (σ : String → ℚ) (v : Variable) :
    (LinExpr.ofVar v).eval σ = σ v.name := by
  simp [LinExpr.eval, LinExpr.ofVar]

@[simp] theorem eval_ofConst (σ : String → ℚ) (q : ℚ) :
    (LinExpr.ofConst q).eval σ = q := by
  simp [LinExpr.eval, LinExpr.ofConst]

@[simp] theorem eval_add (σ : String → ℚ) (a b : LinExpr) :
    (a.add b).eval σ = a.eval σ + b.eval σ := by
  simp [LinExpr.eval, LinExpr.add]
  ring

@[simp] theorem eval_neg (σ : String → ℚ) (a : LinExpr) :
    (a.neg).eval σ = -(a.eval σ) := by
  have hm : (a.terms.map (fun t => (t.1, -t.2))).map (fun t => t.2 * σ t.1) =
      a.terms.map (fun t => -(t.2 * σ t.1)) := by
    simp [List.map_map]
  simp [LinExpr.eval, LinExpr.neg, hm, sum_map_neg_q]
  ring

@[simp] theorem eval_sub (σ : String → ℚ) (a b : LinExpr) :
    (a.sub b).eval σ = a.eval σ - b.eval σ := by
  simp [LinExpr.sub]
  ring

theorem sat_negConstr (σ : String → ℚ) (y x : Variable) :
    Constr.sat σ (negConstr y x) ↔ σ y.name = 1 - σ x.name := by
  simp only [negConstr, Constr.sat, eval_ofVar, eval_sub, eval_ofConst]

/-! ### Claim theorems -/

/-- C1: the claim says `logical_and` on n ≥ 2 same-context binary operands
creates one fresh binary auxiliary `z` with `z ≥ Σxᵢ - n + 1` and `z ≤ xᵢ`.
On the code as written this is false: `logical_and` calls
`assert_same_problem(xs)` with a single argument while errors.py defines it
with two required positional parameters, so every n ≥ 2 call raises
`TypeError` before any variable or constraint is created.  Evaluated here at
two binary variables of one problem. -/
theorem logical_and_n2_raises_type_error :
    xbin0.cat = Cat.Binary ∧ ybin0.cat = Cat.Binary ∧ xbin0.problem = ybin0.problem ∧
    logical_and digest0 prob0 [xbin0, ybin0] = .error (.TypeError missingArgMsg) :=
  ⟨rfl, rfl, rfl, rfl⟩

/-- C3: the claim says cross-context operands raise the CrossContextReference
condition (errors.py `CitrusError`).  `assert_same_problem` itself does raise
`CitrusError` on a context mismatch, but every synthesis function calls it
with a single list argument, so what is actually raised is Python's
`TypeError` — for AND, OR, XOR, IMPLIES, minimum and maximum alike.  No
mutation happens (the error is returned instead of any updated problem). -/
theorem cross_context_raises_type_error_not_citrus_error :
    xbin0.problem ≠ ybin1.problem ∧
    assert_same_problem xbin0 ybin1 =
      .error (.CitrusError "Variables must be associated with the same problem.") ∧
    logical_and digest0 prob0 [xbin0, ybin1] = .error (.TypeError missingArgMsg) ∧
    logical_or digest0 prob0 [xbin0, ybin1] = .error (.TypeError missingArgMsg) ∧
    logical_xor digest0 prob0 xbin0 ybin1 = .error (.TypeError missingArgMsg) ∧
    implies digest0 prob0 xbin0 ybin1 = .error (.TypeError missingArgMsg) ∧
    minimum digest0 prob0 [xbin0, ybin1] none = .error (.TypeError missingArgMsg) ∧
    maximum digest0 prob0 [xbin0, ybin1] none = .error (.TypeError missingArgMsg) :=
  ⟨by decide, rfl, rfl, rfl, rfl, rfl, rfl, rfl⟩

/-- C4: the claim says every Boolean synthesis function raises
NonBinaryVariable on a non-binary, non-0/1-constant operand.  `negate` does
(and accepts a fixed 0/1 constant), but AND, OR, XOR and IMPLIES raise
`TypeError` from the miscalled `assert_same_problem` before `assert_binary`
ever runs.  Evaluated at integer-category variables of one problem. -/
theorem non_binary_operand_type_error_preempts_check :
    xint0.cat ≠ Cat.Binary ∧ xint0.fixedValue = none ∧
    negate digest0 prob0 xint0 = .error (.NonBinaryVariableError "xi") ∧
    (negate digest0 prob0 cone0).isOk = true ∧
    logical_and digest0 prob0 [xint0, yint0] = .error (.TypeError missingArgMsg) ∧
    logical_or digest0 prob0 [xint0, yint0] = .error (.TypeError missingArgMsg) ∧
    logical_xor digest0 prob0 xint0 yint0 = .error (.TypeError missingArgMsg) ∧
    implies digest0 prob0 xint0 yint0 = .error (.TypeError missingArgMsg) :=
  ⟨by decide, rfl, rfl, rfl, rfl, rfl, rfl, rfl⟩

/-- C6: the claim says AND/OR accept both the two-argument and the
list-of-operands call forms with identical results, and that a single
operand is returned unchanged.  The single-operand identity holds, but the
source signature `def logical_and(xs)` takes one parameter, so the
two-argument form raises `TypeError`, and the list form with two operands
raises `TypeError` from the miscalled `assert_same_problem`. -/
theorem and_or_call_forms_behavior :
    logical_and_call2 prob0 xbin0 ybin0 =
      .error (.TypeError "logical_and() takes 1 positional argument but 2 were given") ∧
    logical_or_call2 prob0 xbin0 ybin0 =
      .error (.TypeError "logical_or() takes 1 positional argument but 2 were given") ∧
    logical_and digest0 prob0 [xbin0, ybin0] = .error (.TypeError missingArgMsg) ∧
    logical_or digest0 prob0 [xbin0, ybin0] = .error (.TypeError missingArgMsg) ∧
    logical_and digest0 prob0 [xbin0] = .ok (prob0, xbin0) ∧
    logical_or digest0 prob0 [xbin0] = .ok (prob0, xbin0) :=
  ⟨rfl, rfl, rfl, rfl, rfl, rfl⟩

/-- C9: the claim says `get_short_name(long) = short` and
`get_long_name(short) = long`.  In the source the two bodies are swapped:
`get_short_name` reads `_short_to_long` and `get_long_name` reads
`_long_to_short`.  On a registry holding (long "alpha" ↔ short "x_aa"), the
claimed lookups raise KeyError (`none`), and each accessor returns the
opposite direction instead. -/
theorem get_name_lookups_swapped :
    nmEx.long_to_short = [("alpha", "x_aa")] ∧
    nmEx.short_to_long = [("x_aa", "alpha")] ∧
    nmEx.get_short_name "alpha" = none ∧
    nmEx.get_long_name "x_aa" = none ∧
    nmEx.get_short_name "x_aa" = some "alpha" ∧
    nmEx.get_long_name "alpha" = some "x_aa" :=
  ⟨rfl, rfl, rfl, rfl, rfl, rfl⟩

/-- C10: `abs_value` always creates its auxiliary variable with
`cat=pulp.LpInteger`, whatever the operand (continuous variable or
expression) — the category argument on line 132 of core.py is the constant
`pulp.LpInteger`. -/
theorem abs_value_always_integer_cat (digest : String → String) (p : Problem)
    (v : ExprArg) : (abs_value digest p v).2.cat = Cat.Integer := rfl

/-- C8: calling `create_short_name` a second time for the same long name
returns exactly the short name of the first call, fires the warning
(`warnings.warn`, the third component), and leaves the registry unchanged,
so the long↔short mapping stays what the first call made it. -/
theorem create_short_name_second_call (digest : String → String) (m : NameMapping)
    (L pre : String) :
    ((m.create_short_name digest L pre).1.create_short_name digest L pre).2.1 =
      (m.create_short_name digest L pre).2.1 ∧
    ((m.create_short_name digest L pre).1.create_short_name digest L pre).2.2 = true ∧
    ((m.create_short_name digest L pre).1.create_short_name digest L pre).1 =
      (m.create_short_name digest L pre).1 := by
  cases h : dictGet m.long_to_short L with
  | none =>
    simp [NameMapping.create_short_name, h, NameMapping.add, dictGet_dictSet_self]
  | some s =>
    simp [NameMapping.create_short_name, h]

/-- C2: for any operand (Variable or expression) carrying its context,
`abs_value` creates exactly one fresh auxiliary Variable `z` and registers
exactly the two constraints `e <= z` and `-z <= e` (in that order, and no
others); any assignment satisfying both forces `z ≥ |e|`. -/
theorem abs_value_two_constraints_bound (digest : String → String) (p : Problem)
    (v : ExprArg) :
    (abs_value digest p v).1.vars = p.vars ++ [(abs_value digest p v).2] ∧
    (abs_value digest p v).1.constraints.map Prod.snd =
      p.constraints.map Prod.snd ++
        [Constr.le v.e (LinExpr.ofVar (abs_value digest p v).2),
         Constr.le (LinExpr.neg (LinExpr.ofVar (abs_value digest p v).2)) v.e] ∧
    ∀ σ : String → ℚ,
      Constr.sat σ (Constr.le v.e (LinExpr.ofVar (abs_value digest p v).2)) →
      Constr.sat σ (Constr.le (LinExpr.neg (LinExpr.ofVar (abs_value digest p v).2)) v.e) →
      |LinExpr.eval σ v.e| ≤ σ (abs_value digest p v).2.name := by
  refine ⟨rfl, ?_, ?_⟩
  · simp [abs_value, Problem.addConstraint, Problem.make_var, Problem.synth_var]
  · intro σ h1 h2
    simp only [Constr.sat, eval_ofVar, eval_neg] at h1 h2
    rw [abs_le]
    exact ⟨by linarith, h1⟩

/-- Assignment used to evaluate the abs_value bound at a concrete input. -/
def sigC2 : String → ℚ := fun _ => 0

/-- A concrete expression operand (the affine expression `a`, problem 0). -/
def exprC2 : ExprArg := ⟨⟨[("a", 1)], 0⟩, "e", 0⟩

/-- Witness: the abs_value bound, evaluated at a concrete operand and
assignment. -/
theorem abs_value_two_constraints_bound_witness :
    |LinExpr.eval sigC2 exprC2.e| ≤ sigC2 (abs_value digest0 prob0 exprC2).2.name :=
  (abs_value_two_constraints_bound digest0 prob0 exprC2).2.2 sigC2
    (by simp [Constr.sat, LinExpr.eval, LinExpr.ofVar, LinExpr.neg, exprC2, sigC2])
    (by simp [Constr.sat, LinExpr.eval, LinExpr.ofVar, LinExpr.neg, exprC2, sigC2])

/-- C5: for a binary variable `x`, `negate` succeeds, creates exactly one
fresh binary auxiliary `y`, registers the single constraint `y == 1 - x`,
and applying `negate` again to `y` yields `z` with `z == 1 - y`; every
assignment satisfying the two registered constraints gives `y = 1 - x` and
`z = x`. -/
theorem negate_involution_spec (digest : String → String) (p : Problem)
    (x : Variable) (hx : x.cat = Cat.Binary) :
    ∃ p1 y p2 z,
      negate digest p x = .ok (p1, y) ∧
      y.cat = Cat.Binary ∧
      p1.vars = p.vars ++ [y] ∧
      p1.constraints.map Prod.snd = p.constraints.map Prod.snd ++ [negConstr y x] ∧
      negate digest p1 y = .ok (p2, z) ∧
      p2.constraints.map Prod.snd = p1.constraints.map Prod.snd ++ [negConstr z y] ∧
      ∀ σ : String → ℚ, Constr.sat σ (negConstr y x) → Constr.sat σ (negConstr z y) →
        σ y.name = 1 - σ x.name ∧ σ z.name = σ x.name := by
  refine ⟨_, _, _, _, negate_eq_ok hx, rfl, rfl, ?_, negate_eq_ok rfl, ?_, ?_⟩
  · simp [negate_body, Problem.addConstraint, Problem.make_var, Problem.synth_var]
  · simp [negate_body, Problem.addConstraint, Problem.make_var, Problem.synth_var]
  · intro σ h1 h2
    rw [sat_negConstr] at h1 h2
    exact ⟨h1, by linarith⟩

/-- Witness: the negate specification applied to a concrete binary variable
of a concrete problem. -/
theorem negate_involution_spec_witness :
    ∃ p1 y p2 z,
      negate digest0 prob0 xbin0 = .ok (p1, y) ∧
      y.cat = Cat.Binary ∧
      p1.vars = prob0.vars ++ [y] ∧
      p1.constraints.map Prod.snd = prob0.constraints.map Prod.snd ++ [negConstr y xbin0] ∧
      negate digest0 p1 y = .ok (p2, z) ∧
      p2.constraints.map Prod.snd = p1.constraints.map Prod.snd ++ [negConstr z y] ∧
      ∀ σ : String → ℚ, Constr.sat σ (negConstr y xbin0) → Constr.sat σ (negConstr z y) →
        σ y.name = 1 - σ xbin0.name ∧ σ z.name = σ xbin0.name :=
  negate_involution_spec digest0 prob0 xbin0 rfl

/-- C7: registering a fresh long name mints the short name
`"x_" ++ digest(long)`; it is at most 255 characters (given SHA-1's
40-character hex output), the registry maps it back to the long name, and it
differs from every digest-minted short name already registered for a long
name with a different digest. -/
theorem create_short_name_fresh_spec (digest : String → String) (m : NameMapping)
    (L : String) (hlen : (digest L).length = 40)
    (hfresh : dictGet m.long_to_short L = none) :
    (m.create_short_name digest L "x_").2.1.length ≤ 255 ∧
    dictGet (m.create_short_name digest L "x_").1.short_to_long
      (m.create_short_name digest L "x_").2.1 = some L ∧
    ∀ s L2, dictGet m.short_to_long s = some L2 → s = "x_" ++ digest L2 →
      digest L2 ≠ digest L → s ≠ (m.create_short_name digest L "x_").2.1 := by
  have hr : m.create_short_name digest L "x_" =
      (m.add L ("x_" ++ digest L), "x_" ++ digest L, false) := by
    simp [NameMapping.create_short_name, hfresh]
  rw [hr]
  refine ⟨?_, ?_, ?_⟩
  · have h2 : ("x_" : String).length = 2 := rfl
    simp only [String.length_append, hlen, h2]
    omega
  · simp [NameMapping.add, dictGet_dictSet_self]
  · intro s L2 _hmem hs hd heq
    apply hd
    apply string_append_left_cancel (a := "x_")
    rw [← hs]
    exact heq

/-- Digest stand-in with SHA-1's 40-hex-character output length. -/
def digestW : String → String := fun _ => "0123456789abcdef0123456789abcdef01234567"

/-- A long name of 260 characters, beyond the 255-character backend limit. -/
def longNameW : String :=
  "aaaaaaaaaaaaaaaaaaaaaaaaaaaaaaaaaaaaaaaaaaaaaaaaaaaaaaaaaaaaaaaaaaaaaaaaaaaaaaaaaaaaaaaaaaaaaaaaaaaaaaaaaaaaaaaaaaaaaaaaaaaaaaaaaaaaaaaaaaaaaaaaaaaaaaaaaaaaaaaaaaaaaaaaaaaaaaaaaaaaaaaaaaaaaaaaaaaaaaaaaaaaaaaaaaaaaaaaaaaaaaaaaaaaaaaaaaaaaaaaaaaaaaaaaaaaaaaa"

set_option maxRecDepth 4000 in
/-- Witness: a 260-character long name is registered under a short name
within the limit that maps back to it. -/
theorem create_short_name_fresh_spec_witness :
    255 < longNameW.length ∧
    ((NameMapping.mk [] []).create_short_name digestW longNameW "x_").2.1.length ≤ 255 ∧
    dictGet ((NameMapping.mk [] []).create_short_name digestW longNameW "x_").1.short_to_long
      ((NameMapping.mk [] []).create_short_name digestW longNameW "x_").2.1 = some longNameW :=
  ⟨by decide, (create_short_name_fresh_spec digestW (NameMapping.mk [] []) longNameW rfl rfl).1,
   (create_short_name_fresh_spec digestW (NameMapping.mk [] []) longNameW rfl rfl).2.1⟩

end Citrus
